import Mathlib

/-!
Formal model of the vite-plugin-ssr orchestration layer (src/src/plugin.ts,
with the asset-extractor variant of src/unnamed/part_003).

The plugin's pure logic is translated into executable Lean definitions:
configuration resolution, HTML asset extraction, the dev request router,
the ssr fallback middleware (as a pure outcome-plus-event-trace function),
the hot-update bridge, and the production manifest synthesizer.  External
collaborators (cheerio, the Vite module runners, the HTTP transport) are
represented by their observable inputs and outputs: an HTML document is a
list of tag nodes in document order, module loading is a function into an
Except error monad, and awaited steps are recorded as an event trace.
-/

namespace VitePluginSsr

/-! ## Configuration data model (plugin.ts lines 15-38) -/

/-- BaseEnvConfig: the object form of a client/ssr target configuration.
The opaque environment callback is elided (no claim concerns it). -/
structure BaseEnvConfig where
  entry : String
deriving Repr, DecidableEq

/-- A client/ssr target is a bare entry string or a config object. -/
inductive StrOrBase where
  | str (s : String)
  | cfg (c : BaseEnvConfig)
deriving Repr, DecidableEq

/-- The object form of an API target configuration as given by the user:
entry plus an optional route. -/
structure APIConfigInput where
  entry : String
  route : Option String
deriving Repr, DecidableEq

/-- An API target is a bare entry string or a config object. -/
inductive StrOrAPI where
  | str (s : String)
  | cfg (c : APIConfigInput)
deriving Repr, DecidableEq

/-- APIConfig: a resolved API target always has an entry and a route. -/
structure APIConfig where
  entry : String
  route : String
deriving Repr, DecidableEq

/-- Options: the raw plugin configuration.  The apis record is modelled as
an association list in key-insertion order (the order Object.entries uses). -/
structure Options where
  client : StrOrBase
  ssr : StrOrBase
  apis : List (String × StrOrAPI)
deriving Repr, DecidableEq

/-- ResolvedOptions (plugin.ts lines 34-38). -/
structure ResolvedOptions where
  client : BaseEnvConfig
  ssr : BaseEnvConfig
  apis : List (String × APIConfig)
deriving Repr, DecidableEq

/-- Body of the reduce in resolveOptions (plugin.ts lines 63-67):
entry is the string itself or config.entry; route is config.route when the
config is an object and the route is truthy (a nonempty string), otherwise
the default built from the api name. -/
def resolveApi (api : String) (config : StrOrAPI) : APIConfig :=
  match config with
  | .str s => { entry := s, route := "/" ++ api }
  | .cfg c =>
      { entry := c.entry,
        route :=
          match c.route with
          | some r => if r = "" then "/" ++ api else r
          | none => "/" ++ api }

/-- resolveOptions (plugin.ts lines 57-73): a total, purely structural
transform.  No validation of any kind is performed. -/
def resolveOptions (o : Options) : ResolvedOptions :=
  { client := match o.client with | .str s => { entry := s } | .cfg c => c,
    ssr := match o.ssr with | .str s => { entry := s } | .cfg c => c,
    apis := o.apis.map (fun p => (p.1, resolveApi p.1 p.2)) }

/-! ## Claims C9 and C3: configuration resolution -/

/-- Claim C9: every target given as a bare string is normalized to a
descriptor with that string as entry, and every API target whose
configuration does not specify a route receives the route prefix built
from a slash and its name in the apis object. -/
theorem c9_normalization (o : Options) :
    (∀ s, o.client = StrOrBase.str s → (resolveOptions o).client = { entry := s })
    ∧ (∀ s, o.ssr = StrOrBase.str s → (resolveOptions o).ssr = { entry := s })
    ∧ (∀ name s, (name, StrOrAPI.str s) ∈ o.apis →
        (name, ({ entry := s, route := "/" ++ name } : APIConfig)) ∈ (resolveOptions o).apis)
    ∧ (∀ name entry, (name, StrOrAPI.cfg { entry := entry, route := none }) ∈ o.apis →
        (name, ({ entry := entry, route := "/" ++ name } : APIConfig)) ∈ (resolveOptions o).apis) := by
  refine ⟨?_, ?_, ?_, ?_⟩
  · intro s h; simp [resolveOptions, h]
  · intro s h; simp [resolveOptions, h]
  · intro name s h
    have := List.mem_map_of_mem (fun p => (p.1, resolveApi p.1 p.2)) h
    simpa [resolveOptions, resolveApi] using this
  · intro name entry h
    have := List.mem_map_of_mem (fun p => (p.1, resolveApi p.1 p.2)) h
    simpa [resolveOptions, resolveApi] using this

/-- Concrete instantiation of c9_normalization on the README example
configuration extended with an object-form API target without a route. -/
theorem c9_normalization_witness :
    (resolveOptions
      { client := StrOrBase.str "src/entry-client.ts",
        ssr := StrOrBase.str "src/entry-ssr.ts",
        apis := [("api", StrOrAPI.str "src/entry-api.ts"),
                 ("admin", StrOrAPI.cfg { entry := "src/admin.ts", route := none })] }).client
      = { entry := "src/entry-client.ts" }
    ∧ ("api", ({ entry := "src/entry-api.ts", route := "/api" } : APIConfig)) ∈
        (resolveOptions
          { client := StrOrBase.str "src/entry-client.ts",
            ssr := StrOrBase.str "src/entry-ssr.ts",
            apis := [("api", StrOrAPI.str "src/entry-api.ts"),
                     ("admin", StrOrAPI.cfg { entry := "src/admin.ts", route := none })] }).apis
    ∧ ("admin", ({ entry := "src/admin.ts", route := "/admin" } : APIConfig)) ∈
        (resolveOptions
          { client := StrOrBase.str "src/entry-client.ts",
            ssr := StrOrBase.str "src/entry-ssr.ts",
            apis := [("api", StrOrAPI.str "src/entry-api.ts"),
                     ("admin", StrOrAPI.cfg { entry := "src/admin.ts", route := none })] }).apis :=
  ⟨(c9_normalization _).1 _ rfl,
   (c9_normalization _).2.2.1 "api" "src/entry-api.ts" (by decide),
   (c9_normalization _).2.2.2 "admin" "src/admin.ts" (by decide)⟩

/-- A configuration in which two API targets explicitly resolve to the same
route prefix. -/
def collidingOptions : Options :=
  { client := StrOrBase.str "src/entry-client.ts",
    ssr := StrOrBase.str "src/entry-ssr.ts",
    apis := [("alpha", StrOrAPI.cfg { entry := "src/a.ts", route := some "/api" }),
             ("beta", StrOrAPI.cfg { entry := "src/b.ts", route := some "/api" })] }

/-- Claim C3 counterexample: two API targets resolving to the same route
prefix are accepted without any error; resolveOptions returns normally and
keeps both colliding targets, so no ConfigError stops the build or dev
session.  (The source of resolveOptions, plugin.ts lines 57-73, contains no
validation and no throw at all.) -/
theorem c3_no_validation_counterexample :
    (resolveOptions collidingOptions).apis
      = [("alpha", { entry := "src/a.ts", route := "/api" }),
         ("beta", { entry := "src/b.ts", route := "/api" })]
    ∧ ¬ ((resolveOptions collidingOptions).apis.map (fun p => p.2.route)).Nodup := by
  exact ⟨rfl, by decide⟩

/-- Claim C3 (amended): configuration resolution is total and performs no
validation: for every configuration, including ones with colliding route
prefixes, resolution returns normally and keeps every declared API target
with its name and declaration order intact. -/
theorem c3_resolution_is_total (o : Options) :
    (resolveOptions o).apis.map Prod.fst = o.apis.map Prod.fst
    ∧ (resolveOptions o).apis.length = o.apis.length := by
  constructor
  · simp [resolveOptions]
  · simp [resolveOptions]

/-! ## HTML asset extraction (extractHtmlAssets, part_003 lines 82-102;
extractHtmlScripts, plugin.ts lines 85-101)

The cheerio collaborator is modelled by its observable output: an HTML
document is the list of its tag nodes in document order.  A script node
carries its optional src attribute and its inline text (the html() of the
element, an empty string for an empty body); a stylesheet link carries its
href. -/

/-- One HTML tag node, in document order. -/
inductive HtmlNode where
  | script (src : Option String) (inlineText : String)
  | stylesheetLink (href : String)
  | otherTag
deriving Repr, DecidableEq

/-- AssetReference: a path reference or an inline content reference. -/
inductive AssetRef where
  | path (p : String)
  | content (c : String)
deriving Repr, DecidableEq

/-- Whether an asset reference is a path reference. -/
def AssetRef.isPath : AssetRef → Bool
  | .path _ => true
  | .content _ => false

/-- The extracted asset lists (the Context assets shape of part_003). -/
structure ExtractedAssets where
  js : List AssetRef
  css : List AssetRef
deriving Repr, DecidableEq

/-- The push for one script element (part_003 line 93):
JavaScript truthiness of src decides the branch, so an absent src or an
empty-string src both produce a content reference. -/
def scriptAssetRef (src : Option String) (inlineText : String) : AssetRef :=
  match src with
  | some s => if s = "" then AssetRef.content inlineText else AssetRef.path s
  | none => AssetRef.content inlineText

/-- extractHtmlAssets (part_003 lines 82-102): scripts in document order
into js, stylesheet links in document order into css. -/
def extractHtmlAssets (doc : List HtmlNode) : ExtractedAssets :=
  { js := doc.filterMap (fun n =>
      match n with
      | .script src inlineText => some (scriptAssetRef src inlineText)
      | _ => none),
    css := doc.filterMap (fun n =>
      match n with
      | .stylesheetLink href => some (AssetRef.path href)
      | _ => none) }

/-- InjectedScript (plugin.ts line 85). -/
structure InjectedScript where
  content : Option String
  src : Option String
deriving Repr, DecidableEq

/-- extractHtmlScripts (plugin.ts lines 87-101): records src and inline
text for every script element, in document order. -/
def extractHtmlScripts (doc : List HtmlNode) : List InjectedScript :=
  doc.filterMap (fun n =>
    match n with
    | .script src inlineText => some { content := some inlineText, src := src }
    | _ => none)

/-- The script tags of a document, in document order. -/
def scriptTags (doc : List HtmlNode) : List (Option String × String) :=
  doc.filterMap (fun n =>
    match n with
    | .script src inlineText => some (src, inlineText)
    | _ => none)

/-- The src attributes of the script tags that have one, in document order. -/
def scriptSrcs (doc : List HtmlNode) : List String :=
  doc.filterMap (fun n =>
    match n with
    | .script src _ => src
    | _ => none)

/-- The hrefs of the stylesheet links, in document order. -/
def stylesheetHrefs (doc : List HtmlNode) : List String :=
  doc.filterMap (fun n =>
    match n with
    | .stylesheetLink href => some href
    | _ => none)

/-- The extracted js list is the per-script-tag push, in document order. -/
theorem extract_js_eq_map (doc : List HtmlNode) :
    (extractHtmlAssets doc).js = (scriptTags doc).map (fun t => scriptAssetRef t.1 t.2) := by
  induction doc with
  | nil => rfl
  | cons n rest ih =>
      cases n <;> simp [extractHtmlAssets, scriptTags, List.filterMap_cons] at ih ⊢ <;>
        simpa [extractHtmlAssets, scriptTags] using ih

/-- The extracted css list is the href list mapped to path references. -/
theorem extract_css_eq_map (doc : List HtmlNode) :
    (extractHtmlAssets doc).css = (stylesheetHrefs doc).map AssetRef.path := by
  induction doc with
  | nil => rfl
  | cons n rest ih =>
      cases n <;> simp [extractHtmlAssets, stylesheetHrefs, List.filterMap_cons] at ih ⊢ <;>
        simpa [extractHtmlAssets, stylesheetHrefs] using ih

/-- Mapping the per-tag push over tags that all carry a nonempty src gives
exactly the path references of those srcs. -/
theorem map_scriptAssetRef_paths (l : List (Option String × String))
    (h : ∀ t ∈ l, ∃ s, t.1 = some s ∧ s ≠ "") :
    l.map (fun t => scriptAssetRef t.1 t.2) = (l.filterMap Prod.fst).map AssetRef.path := by
  induction l with
  | nil => rfl
  | cons t rest ih =>
      obtain ⟨s, hs, hne⟩ := h t (List.mem_cons_self t rest)
      have hrest := ih (fun u hu => h u (List.mem_cons_of_mem t hu))
      simp only [List.filterMap_cons, hs, List.map_cons]
      rw [show scriptAssetRef (some s) t.2 = AssetRef.path s by simp [scriptAssetRef, hne]]
      rw [hrest]

/-- scriptSrcs is the filterMap of the first components of scriptTags. -/
theorem scriptSrcs_eq (doc : List HtmlNode) :
    scriptSrcs doc = (scriptTags doc).filterMap Prod.fst := by
  induction doc with
  | nil => rfl
  | cons n rest ih =>
      cases n with
      | script src inlineText =>
          cases src <;> simp [scriptSrcs, scriptTags, List.filterMap_cons] <;> exact ih
      | stylesheetLink href => simpa [scriptSrcs, scriptTags, List.filterMap_cons] using ih
      | otherTag => simpa [scriptSrcs, scriptTags, List.filterMap_cons] using ih

/-- Claim C4 counterexample: one script tag whose src attribute is the
empty string is a script-src tag, yet extraction yields a content
reference and zero path references (JavaScript truthiness sends an empty
src to the content branch), so the as-stated count of script path
references fails. -/
theorem c4_empty_src_counterexample :
    (extractHtmlAssets [HtmlNode.script (some "") ""]).js = [AssetRef.content ""]
    ∧ ((extractHtmlAssets [HtmlNode.script (some "") ""]).js.countP AssetRef.isPath) = 0 := by
  exact ⟨rfl, rfl⟩

/-- Claim C4 (amended): for every document, extraction is total and yields
exactly one js reference per script tag; when every script tag carries a
nonempty src, the js list is exactly those srcs as path references in
document order; the css list is exactly the stylesheet hrefs as path
references in document order; a script without src yields a content
reference preserving the inline text verbatim; and a document with no
script or stylesheet tags yields empty lists. -/
theorem c4_asset_extraction (doc : List HtmlNode) :
    (extractHtmlAssets doc).js.length = (scriptTags doc).length
    ∧ ((∀ t ∈ scriptTags doc, ∃ s, t.1 = some s ∧ s ≠ "") →
        (extractHtmlAssets doc).js = (scriptSrcs doc).map AssetRef.path)
    ∧ (extractHtmlAssets doc).css = (stylesheetHrefs doc).map AssetRef.path
    ∧ (∀ c, scriptAssetRef none c = AssetRef.content c)
    ∧ (scriptTags doc = [] → stylesheetHrefs doc = [] → extractHtmlAssets doc = ⟨[], []⟩) := by
  refine ⟨?_, ?_, extract_css_eq_map doc, fun c => rfl, ?_⟩
  · rw [extract_js_eq_map]; exact List.length_map _ _
  · intro h
    rw [extract_js_eq_map, map_scriptAssetRef_paths _ h, scriptSrcs_eq]
  · intro hs hl
    have hjs : (extractHtmlAssets doc).js = [] := by
      rw [extract_js_eq_map, hs]; rfl
    have hcss : (extractHtmlAssets doc).css = [] := by
      rw [extract_css_eq_map, hl]; rfl
    cases hE : extractHtmlAssets doc
    simp only [hE] at hjs hcss
    simp [hjs, hcss]

/-- Concrete instantiation of c4_asset_extraction: two script-src tags and
one stylesheet link yield two path references and one style path reference
in document order. -/
theorem c4_asset_extraction_witness :
    (extractHtmlAssets
        [HtmlNode.script (some "/a.js") "", HtmlNode.stylesheetLink "/s.css",
         HtmlNode.script (some "/b.js") ""]).js
      = [AssetRef.path "/a.js", AssetRef.path "/b.js"]
    ∧ (extractHtmlAssets
        [HtmlNode.script (some "/a.js") "", HtmlNode.stylesheetLink "/s.css",
         HtmlNode.script (some "/b.js") ""]).css
      = [AssetRef.path "/s.css"] :=
  ⟨((c4_asset_extraction _).2.1 (by decide)).trans (by decide),
   ((c4_asset_extraction _).2.2.1).trans (by decide)⟩

/-! ## Dev router API dispatch (configureServer, plugin.ts lines 204-219)

One connect middleware is registered per API entry, in registration order;
each tests whether the request url starts with its own route and handles
the request if so, otherwise passes to the next middleware.  The chain is
modelled as a recursion over the registered entries. -/

/-- JavaScript String.prototype.startsWith. -/
def jsStartsWith (s pre : String) : Bool :=
  pre.data.isPrefixOf s.data

/-- The API middleware chain: the name of the first registered API whose
route is a prefix of the request url, or none (the request falls through
to the ssr fallback). -/
def devDispatch (entries : List (String × APIConfig)) (url : String) : Option String :=
  match entries with
  | [] => none
  | p :: rest => if jsStartsWith url p.2.route then some p.1 else devDispatch rest url

/-- Claim C2: API route prefixes are tested in registration order and the
first route that is a prefix of the request url wins, regardless of any
later, more specific route. -/
theorem c2_first_match_wins (before : List (String × APIConfig)) (name : String)
    (cfg : APIConfig) (after : List (String × APIConfig)) (url : String)
    (hbefore : ∀ p ∈ before, jsStartsWith url p.2.route = false)
    (hcfg : jsStartsWith url cfg.route = true) :
    devDispatch (before ++ (name, cfg) :: after) url = some name := by
  induction before with
  | nil => simp [devDispatch, hcfg]
  | cons p rest ih =>
      have hp := hbefore p (List.mem_cons_self p rest)
      have hrest := ih (fun q hq => hbefore q (List.mem_cons_of_mem p hq))
      simp [devDispatch, hp, hrest]

/-- Concrete instantiation of c2_first_match_wins: with targets registered
as /api then /api/admin, a request to /api/admin/x is dispatched to the
/api handler, not to the more specific /api/admin handler. -/
theorem c2_first_match_wins_witness :
    devDispatch
      [("api", { entry := "src/entry-api.ts", route := "/api" }),
       ("admin", { entry := "src/entry-admin.ts", route := "/api/admin" })]
      "/api/admin/x" = some "api"
    ∧ some "api" ≠ some "admin" :=
  ⟨c2_first_match_wins [] "api" { entry := "src/entry-api.ts", route := "/api" }
      [("admin", { entry := "src/entry-admin.ts", route := "/api/admin" })]
      "/api/admin/x" (by intro p hp; cases hp) (by decide),
   by decide⟩

/-! ## Dev virtual client entry module (resolveId/load, plugin.ts 256-271) -/

/-- The import statement synthesized for one injected script's src; an
absent src is interpolated by the template literal as the text undefined. -/
def importStmtOf (src : Option String) : String :=
  "import \"" ++ src.getD "undefined" ++ "\";"

/-- One line of the virtual module per injected script (plugin.ts line
266): JavaScript truthiness keeps a nonempty inline content verbatim and
otherwise synthesizes an import of the src. -/
def devVirtualLine (s : InjectedScript) : String :=
  match s.content with
  | some c => if c = "" then importStmtOf s.src else c
  | none => importStmtOf s.src

/-- The full content of the dev-only virtual client entry module
(plugin.ts lines 263-269): the per-script lines joined by newlines,
followed by an awaited dynamic import of base concatenated with the
configured client entry. -/
def devVirtualModule (scripts : List InjectedScript) (base clientEntry : String) : String :=
  String.intercalate "\n" (scripts.map devVirtualLine)
    ++ "\nawait import(\"" ++ base ++ clientEntry ++ "\");"

/-- Claim C6 counterexample: an injected asset that was extracted as
inline content is inserted into the virtual module verbatim, not
re-expressed as an import: the generated line does not start with the
token import. -/
theorem c6_inline_not_import_counterexample :
    devVirtualLine { content := some "window.__vite_polyfill = 1", src := none }
      = "window.__vite_polyfill = 1"
    ∧ jsStartsWith "window.__vite_polyfill = 1" "import" = false
    ∧ devVirtualModule [{ content := some "window.__vite_polyfill = 1", src := none }]
        "/" "src/entry-client.ts"
      = "window.__vite_polyfill = 1\nawait import(\"/src/entry-client.ts\");" := by
  refine ⟨rfl, by decide, rfl⟩

/-- Claim C6 (amended): the virtual module consists of one line per
previously extracted injected asset, in captured order, joined by
newlines — the asset's inline content verbatim when that content is
nonempty, otherwise a static import of its src — followed by an awaited
dynamic import of the configured base joined with the real client entry. -/
theorem c6_virtual_client_entry (scripts : List InjectedScript) (base clientEntry : String) :
    devVirtualModule scripts base clientEntry
      = String.intercalate "\n" (scripts.map devVirtualLine)
          ++ "\nawait import(\"" ++ base ++ clientEntry ++ "\");"
    ∧ (∀ s ∈ scripts, ∀ c, s.content = some c → c ≠ "" → devVirtualLine s = c)
    ∧ (∀ s ∈ scripts, s.content.getD "" = "" →
        devVirtualLine s = "import \"" ++ s.src.getD "undefined" ++ "\";") := by
  refine ⟨rfl, ?_, ?_⟩
  · intro s _ c hc hne
    simp [devVirtualLine, hc, hne]
  · intro s _ hempty
    cases hcont : s.content with
    | none => simp [devVirtualLine, hcont, importStmtOf]
    | some c =>
        rw [hcont] at hempty
        simp only [Option.getD] at hempty
        simp [devVirtualLine, hcont, hempty, importStmtOf]

/-- Concrete instantiation of c6_virtual_client_entry on a session whose
extraction captured one src script (the vite client) followed by one
nonempty inline script. -/
theorem c6_virtual_client_entry_witness :
    devVirtualLine { content := some "", src := some "/@vite/client" }
      = "import \"/@vite/client\";"
    ∧ devVirtualLine { content := some "window.__p = 1", src := none } = "window.__p = 1"
    ∧ devVirtualModule
        [{ content := some "", src := some "/@vite/client" },
         { content := some "window.__p = 1", src := none }]
        "/" "src/entry-client.ts"
      = String.intercalate "\n"
          (([{ content := some "", src := some "/@vite/client" },
             { content := some "window.__p = 1", src := none }] : List InjectedScript).map
            devVirtualLine)
          ++ "\nawait import(\"" ++ "/" ++ "src/entry-client.ts" ++ "\");" :=
  ⟨(c6_virtual_client_entry
      [{ content := some "", src := some "/@vite/client" }] "/" "src/entry-client.ts").2.2
      _ (by decide) (by decide),
   (c6_virtual_client_entry
      [{ content := some "window.__p = 1", src := none }] "/" "src/entry-client.ts").2.1
      _ (by decide) "window.__p = 1" rfl (by decide),
   (c6_virtual_client_entry _ _ _).1⟩

/-! ## The ssr fallback middleware (configureServer, plugin.ts lines 221-254)

The middleware is modelled as a pure function from the request state
(writableEnded), the registered API entries, and the outcomes of the
awaited module loads and of the handler invocation, to an observable run:
whether next() was called, the response written, the console log lines,
and the trace of awaited load/invoke events in program order. -/

/-- An error value as observed by the catch block: its stack trace. -/
structure ErrObj where
  stack : String
deriving Repr, DecidableEq

/-- The response value written by the middleware. -/
structure DevResponse where
  statusCode : Nat
  body : String
deriving Repr, DecidableEq

/-- The assets value of the dev ssr context (plugin.ts lines 42-45). -/
structure HtmlAssets where
  js : String
  css : List String
deriving Repr, DecidableEq

/-- The dev ssr context (plugin.ts lines 47-50), with handler values of an
abstract type. -/
structure DevContext (α : Type) where
  assets : HtmlAssets
  apis : List (String × α)

/-- One awaited step of the middleware body. -/
inductive DevEvent where
  | loadApi (name : String)
  | loadSsr
  | invokeSsr
deriving Repr, DecidableEq

/-- The observable outcome of one run of the fallback middleware. -/
structure FallbackRun where
  passedToNext : Bool
  response : Option DevResponse
  logs : List String
  events : List DevEvent
deriving Repr, DecidableEq

/-- The joint await of all API module loads (the Promise.all at plugin.ts
line 228), resolving to the loaded handler values or to the first
rejection. -/
def sequenceLoads {α : Type} (entries : List (String × APIConfig))
    (loadApi : String → Except ErrObj α) : Except ErrObj (List α) :=
  match entries with
  | [] => Except.ok []
  | p :: rest =>
      match loadApi p.2.entry with
      | Except.error e => Except.error e
      | Except.ok h =>
          match sequenceLoads rest loadApi with
          | Except.error e => Except.error e
          | Except.ok hs => Except.ok (h :: hs)

/-- The ssr context built per request (plugin.ts lines 229-241): a fixed
assets value referencing the dev virtual client entry, and the api names
zipped with the handler values already loaded by the joint await. -/
def buildDevContext {α : Type} (entries : List (String × APIConfig))
    (handlers : List α) : DevContext α :=
  { assets := { js := "/@client-entry", css := [] },
    apis := (entries.map Prod.fst).zip handlers }

/-- The fallback middleware body (plugin.ts lines 222-253): skip when the
response already ended; otherwise await the API loads, build the context,
await the ssr load, invoke; any error is caught once, logged, and answered
with a 500 carrying the stack trace.  Nothing is ever retried. -/
def ssrFallback {α β : Type} (writableEnded : Bool) (entries : List (String × APIConfig))
    (loadApi : String → Except ErrObj α) (loadSsr : Except ErrObj β)
    (invoke : β → DevContext α → Except ErrObj DevResponse) : FallbackRun :=
  if writableEnded then
    { passedToNext := true, response := none, logs := [], events := [] }
  else
    let loadEvents := entries.map (fun p => DevEvent.loadApi p.1)
    match sequenceLoads entries loadApi with
    | Except.error e =>
        { passedToNext := false, response := some { statusCode := 500, body := e.stack },
          logs := [e.stack], events := loadEvents }
    | Except.ok handlers =>
        match loadSsr with
        | Except.error e =>
            { passedToNext := false, response := some { statusCode := 500, body := e.stack },
              logs := [e.stack], events := loadEvents ++ [DevEvent.loadSsr] }
        | Except.ok h =>
            match invoke h (buildDevContext entries handlers) with
            | Except.error e =>
                { passedToNext := false,
                  response := some { statusCode := 500, body := e.stack },
                  logs := [e.stack],
                  events := loadEvents ++ [DevEvent.loadSsr, DevEvent.invokeSsr] }
            | Except.ok r =>
                { passedToNext := false, response := some r, logs := [],
                  events := loadEvents ++ [DevEvent.loadSsr, DevEvent.invokeSsr] }

/-- Claim C5 counterexample: in the dev ssr context the assets value is
the fixed virtual client entry reference — not the asset list cached at
session start — and the apis field maps the api name to the already loaded
handler value (here the value 7), not to a loader; moreover the load event
for the api precedes the ssr invocation even though the invoked handler
never demands the api. -/
theorem c5_eager_context_counterexample :
    (buildDevContext [("api", { entry := "src/entry-api.ts", route := "/api" })]
        [(7 : Nat)]).assets = { js := "/@client-entry", css := [] }
    ∧ (buildDevContext [("api", { entry := "src/entry-api.ts", route := "/api" })]
        [(7 : Nat)]).apis = [("api", 7)]
    ∧ (ssrFallback false [("api", { entry := "src/entry-api.ts", route := "/api" })]
        (fun _ => Except.ok (7 : Nat)) (Except.ok (0 : Nat))
        (fun _ _ => Except.ok { statusCode := 200, body := "ok" })).events
      = [DevEvent.loadApi "api", DevEvent.loadSsr, DevEvent.invokeSsr] := by
  exact ⟨rfl, rfl, rfl⟩

/-- Claim C5 (amended): for every request dispatched to the ssr handler in
development, the context holds the fixed assets reference to the virtual
client entry plus a map from each API name to that API's current handler
value, every handler being (re)loaded eagerly when the request starts; all
API load events precede the ssr load and its invocation. -/
theorem c5_dev_context {α β : Type} (entries : List (String × APIConfig))
    (handlers : List α) (loadApi : String → Except ErrObj α) (ssrHandler : β)
    (invoke : β → DevContext α → Except ErrObj DevResponse) (r : DevResponse)
    (hapis : sequenceLoads entries loadApi = Except.ok handlers)
    (hinvoke : invoke ssrHandler (buildDevContext entries handlers) = Except.ok r) :
    (buildDevContext entries handlers).assets = { js := "/@client-entry", css := [] }
    ∧ (buildDevContext entries handlers).apis = (entries.map Prod.fst).zip handlers
    ∧ (ssrFallback false entries loadApi (Except.ok ssrHandler) invoke).events
        = entries.map (fun p => DevEvent.loadApi p.1) ++ [DevEvent.loadSsr, DevEvent.invokeSsr]
    ∧ (ssrFallback false entries loadApi (Except.ok ssrHandler) invoke).response = some r := by
  refine ⟨rfl, rfl, ?_, ?_⟩
  · simp [ssrFallback, hapis, hinvoke]
  · simp [ssrFallback, hapis, hinvoke]

/-- Concrete instantiation of c5_dev_context with one API target whose
handler loads to the value 7. -/
theorem c5_dev_context_witness :
    (buildDevContext [("api", { entry := "src/entry-api.ts", route := "/api" })]
        [(7 : Nat)]).apis = [("api", 7)]
    ∧ (ssrFallback false [("api", { entry := "src/entry-api.ts", route := "/api" })]
        (fun _ => Except.ok (7 : Nat)) (Except.ok (0 : Nat))
        (fun _ _ => Except.ok { statusCode := 200, body := "ok" })).events
      = [("api", ({ entry := "src/entry-api.ts", route := "/api" } : APIConfig))].map
          (fun p => DevEvent.loadApi p.1) ++ [DevEvent.loadSsr, DevEvent.invokeSsr] :=
  ⟨((c5_dev_context [("api", { entry := "src/entry-api.ts", route := "/api" })]
      [(7 : Nat)] (fun _ => Except.ok (7 : Nat)) (0 : Nat)
      (fun _ _ => Except.ok { statusCode := 200, body := "ok" })
      { statusCode := 200, body := "ok" } rfl rfl).2.1).trans (by decide),
   (c5_dev_context [("api", { entry := "src/entry-api.ts", route := "/api" })]
      [(7 : Nat)] (fun _ => Except.ok (7 : Nat)) (0 : Nat)
      (fun _ _ => Except.ok { statusCode := 200, body := "ok" })
      { statusCode := 200, body := "ok" } rfl rfl).2.2.1⟩

/-- Claim C7: when the request reaches the fallback body and loading or
invoking the ssr handler throws, the error is caught, logged once, and
answered with status 500 and the error's stack trace as the body; the ssr
load and the invocation each happen at most once (no retry). -/
theorem c7_fallback_error_500 {α β : Type} (entries : List (String × APIConfig))
    (handlers : List α) (loadApi : String → Except ErrObj α)
    (loadSsr : Except ErrObj β) (invoke : β → DevContext α → Except ErrObj DevResponse)
    (e : ErrObj)
    (hapis : sequenceLoads entries loadApi = Except.ok handlers)
    (hfail : loadSsr = Except.error e
      ∨ ∃ h, loadSsr = Except.ok h
          ∧ invoke h (buildDevContext entries handlers) = Except.error e) :
    (ssrFallback false entries loadApi loadSsr invoke).passedToNext = false
    ∧ (ssrFallback false entries loadApi loadSsr invoke).response
        = some { statusCode := 500, body := e.stack }
    ∧ (ssrFallback false entries loadApi loadSsr invoke).logs = [e.stack]
    ∧ (ssrFallback false entries loadApi loadSsr invoke).events.count DevEvent.loadSsr ≤ 1
    ∧ (ssrFallback false entries loadApi loadSsr invoke).events.count DevEvent.invokeSsr ≤ 1 := by
  have hcountApi : ∀ ev : DevEvent, (∀ n, ev ≠ DevEvent.loadApi n) →
      (entries.map (fun p => DevEvent.loadApi p.1)).count ev = 0 := by
    intro ev hev
    refine List.count_eq_zero.mpr ?_
    intro hmem
    obtain ⟨p, _, hp⟩ := List.mem_map.mp hmem
    exact hev p.1 hp.symm
  rcases hfail with hload | ⟨h, hok, hinv⟩
  · refine ⟨?_, ?_, ?_, ?_, ?_⟩ <;>
      simp [ssrFallback, hapis, hload, List.count_append, List.count_cons,
        hcountApi DevEvent.loadSsr (by intro n hn; cases hn),
        hcountApi DevEvent.invokeSsr (by intro n hn; cases hn)]
  · refine ⟨?_, ?_, ?_, ?_, ?_⟩ <;>
      simp [ssrFallback, hapis, hok, hinv, List.count_append, List.count_cons,
        hcountApi DevEvent.loadSsr (by intro n hn; cases hn),
        hcountApi DevEvent.invokeSsr (by intro n hn; cases hn)]

/-- Concrete instantiation of c7_fallback_error_500: the ssr module load
rejects with a stack trace and the middleware answers 500 with that trace. -/
theorem c7_fallback_error_500_witness :
    (ssrFallback false ([] : List (String × APIConfig))
        (fun _ => Except.ok (0 : Nat))
        (Except.error { stack := "Error: boom" } : Except ErrObj Nat)
        (fun _ _ => Except.ok { statusCode := 200, body := "ok" })).response
      = some { statusCode := 500, body := "Error: boom" }
    ∧ (ssrFallback false ([] : List (String × APIConfig))
        (fun _ => Except.ok (0 : Nat))
        (Except.error { stack := "Error: boom" } : Except ErrObj Nat)
        (fun _ _ => Except.ok { statusCode := 200, body := "ok" })).logs = ["Error: boom"] :=
  ⟨(c7_fallback_error_500 [] [] (fun _ => Except.ok (0 : Nat))
      (Except.error { stack := "Error: boom" })
      (fun _ _ => Except.ok { statusCode := 200, body := "ok" })
      { stack := "Error: boom" } rfl (Or.inl rfl)).2.1,
   (c7_fallback_error_500 [] [] (fun _ => Except.ok (0 : Nat))
      (Except.error { stack := "Error: boom" })
      (fun _ _ => Except.ok { statusCode := 200, body := "ok" })
      { stack := "Error: boom" } rfl (Or.inl rfl)).2.2.1⟩

/-- Claim C10: when the response has already completed before the fallback
middleware runs, the request is passed to the next middleware and nothing
is loaded, invoked, logged, or written. -/
theorem c10_writable_ended_passthrough {α β : Type} (entries : List (String × APIConfig))
    (loadApi : String → Except ErrObj α) (loadSsr : Except ErrObj β)
    (invoke : β → DevContext α → Except ErrObj DevResponse) :
    ssrFallback true entries loadApi loadSsr invoke
      = { passedToNext := true, response := none, logs := [], events := [] } := by
  simp [ssrFallback]

/-! ## Hot-update bridge (hotUpdate, plugin.ts lines 272-279) -/

/-- A signal sent to the client dev session. -/
inductive HotSignal where
  | fullReload
deriving Repr, DecidableEq

/-- hotUpdate: the signals this hook sends for one change notification,
given the environment the changed module belongs to and the number of
changed modules. -/
def hotUpdate (envName : String) (modulesLen : Nat) : List HotSignal :=
  if envName = "ssr" ∧ 0 < modulesLen then [HotSignal.fullReload] else []

/-- Claim C8: a change notification in the ssr environment with at least
one changed module sends exactly one full-reload signal; a change in the
client environment sends none. -/
theorem c8_hot_update (envName : String) (modulesLen : Nat) :
    (envName = "ssr" → 0 < modulesLen → hotUpdate envName modulesLen = [HotSignal.fullReload])
    ∧ (envName = "client" → hotUpdate envName modulesLen = []) := by
  constructor
  · intro h hm; simp [hotUpdate, h, hm]
  · intro h
    subst h
    simp [hotUpdate]

/-- Concrete instantiation of c8_hot_update: one changed ssr module sends
one full reload; a client-scoped change sends nothing. -/
theorem c8_hot_update_witness :
    hotUpdate "ssr" 1 = [HotSignal.fullReload] ∧ hotUpdate "client" 5 = [] :=
  ⟨(c8_hot_update "ssr" 1).1 rfl (by decide), (c8_hot_update "client" 5).2 rfl⟩

/-! ## Manifest synthesizer (createIndexContent, plugin.ts lines 285-322) -/

/-- The vite metadata of an output chunk: the stylesheet chunks imported
by the entry. -/
structure ViteMetadata where
  importedCss : List String
deriving Repr, DecidableEq

/-- An output chunk of one build. -/
structure OutputChunk where
  fileName : String
  viteMetadata : Option ViteMetadata
deriving Repr, DecidableEq

/-- One build's rollup output, its chunks in emission order. -/
structure RollupOutput where
  output : List OutputChunk
deriving Repr, DecidableEq

/-- The file name of the first output chunk.  The source indexes
output[0] directly (a successful build always emits its entry chunk
first); the default stands in for the out-of-range access. -/
def firstFileName (o : RollupOutput) : String :=
  (o.output.head?.map (fun c => c.fileName)).getD "undefined"

/-- The embedded asset manifest built from the client output (plugin.ts
lines 300-305): the first client chunk rooted at a slash, and its imported
stylesheet chunks similarly rooted. -/
def createIndexAssets (client : RollupOutput) : HtmlAssets :=
  { js := "/" ++ firstFileName client,
    css := (((client.output.head?.bind (fun c => c.viteMetadata)).map
      (fun m => m.importedCss)).getD []).map (fun css => "/" ++ css) }

/-- JSON.stringify of a string (the modelled file names need no escaping). -/
def jsonString (s : String) : String :=
  "\"" ++ s ++ "\""

/-- JSON.stringify of the assets object. -/
def jsonAssets (a : HtmlAssets) : String :=
  "\x7b\"js\":" ++ jsonString a.js ++ ",\"css\":["
    ++ String.intercalate "," (a.css.map jsonString) ++ "]\x7d"

/-- The export name list of the generated module (plugin.ts line 318). -/
def indexExports (apiEntries : List (String × APIConfig)) : List String :=
  ["ssr", "ssrWithContext", "ssrContext"] ++ apiEntries.map Prod.fst

/-- The lines pushed into the generated manifest module, in push order
(plugin.ts lines 285-321). -/
def createIndexContentLines (client ssrOut : RollupOutput) (apiOutputs : List RollupOutput)
    (apiEntries : List (String × APIConfig)) : List String :=
  ["import ssr from './ssr/" ++ firstFileName ssrOut ++ "';"]
    ++ (apiEntries.zip apiOutputs).map (fun p =>
        "import " ++ p.1.1 ++ " from './" ++ p.1.1 ++ "/" ++ firstFileName p.2 ++ "';")
    ++ ["async function ssrWithContext(request) \x7b return ssr(request, ssrContext); \x7d"]
    ++ ["const ssrContext = \x7b",
        "  assets: " ++ jsonAssets (createIndexAssets client) ++ ",",
        "  apis: \x7b"]
    ++ apiEntries.map (fun p => "    " ++ p.1 ++ ",")
    ++ ["  \x7d", "\x7d;"]
    ++ ["export \x7b " ++ String.intercalate ", " (indexExports apiEntries) ++ " \x7d;"]

/-- createIndexContent: the generated module source, the lines joined by
newlines. -/
def createIndexContent (client ssrOut : RollupOutput) (apiOutputs : List RollupOutput)
    (apiEntries : List (String × APIConfig)) : String :=
  String.intercalate "\n" (createIndexContentLines client ssrOut apiOutputs apiEntries)

/-- Claim C1 counterexample: for a build with one API target named api,
the generated module's export names are ssr, ssrWithContext, ssrContext
and api; the names ssrHandler and context stated by the claim are not
among them. -/
theorem c1_export_names_counterexample :
    indexExports [("api", { entry := "src/entry-api.ts", route := "/api" })]
      = ["ssr", "ssrWithContext", "ssrContext", "api"]
    ∧ "ssrHandler" ∉ indexExports [("api", { entry := "src/entry-api.ts", route := "/api" })]
    ∧ "context" ∉ indexExports [("api", { entry := "src/entry-api.ts", route := "/api" })]
    ∧ (createIndexContentLines
        { output := [{ fileName := "entry-client-abc123.js",
                       viteMetadata := some { importedCss := ["assets/style-def456.css"] } }] }
        { output := [{ fileName := "entry-ssr.js", viteMetadata := none }] }
        [{ output := [{ fileName := "entry-api.js", viteMetadata := none }] }]
        [("api", { entry := "src/entry-api.ts", route := "/api" })]).getLast?
      = some "export \x7b ssr, ssrWithContext, ssrContext, api \x7d;" := by
  exact ⟨rfl, by decide, by decide, rfl⟩

/-- Claim C1 (amended): for every successful production build, the
generated manifest module exports exactly the raw ssr handler as ssr, the
pre-bound invocation function ssrWithContext, the context value as
ssrContext, and one export per registered API target under its registered
name, in that order; the export statement listing exactly these names is
the last line of the generated module. -/
theorem c1_manifest_exports (client ssrOut : RollupOutput) (apiOutputs : List RollupOutput)
    (apiEntries : List (String × APIConfig)) :
    indexExports apiEntries
      = ["ssr", "ssrWithContext", "ssrContext"] ++ apiEntries.map Prod.fst
    ∧ (createIndexContentLines client ssrOut apiOutputs apiEntries).getLast?
        = some ("export \x7b "
            ++ String.intercalate ", "
                (["ssr", "ssrWithContext", "ssrContext"] ++ apiEntries.map Prod.fst)
            ++ " \x7d;")
    ∧ createIndexContent client ssrOut apiOutputs apiEntries
        = String.intercalate "\n" (createIndexContentLines client ssrOut apiOutputs apiEntries) := by
  refine ⟨rfl, ?_, rfl⟩
  show (_ ++ [_]).getLast? = _
  rw [List.getLast?_concat]
  rfl

end VitePluginSsr
